import Mathlib

/-!
# wayland-egl-experiment: a shallow embedding of `src/main.c`

The program is a single-threaded Wayland client.  Every handler of `main.c`
receives the context `ctx_t` and talks to the outside world only through
library calls (libwayland, EGL, GLES2).  The embedding is:

* `ctx_t` is the C struct, field by field.  Pointers and EGL handles are
  natural numbers, `0` being `NULL` / `EGL_NO_DISPLAY` / `EGL_NO_CONTEXT` /
  `EGL_NO_SURFACE` (all four are the null handle in the EGL headers).
  `uint32_t` fields are `Nat`, `int32_t` arguments are `Int`; the C
  conversions between the two are `toU32` and `toI32`.
* every library call a function makes is recorded, in program order, in a
  list of `Call`;
* the value a library call returns is an extra argument of the function that
  makes the call (it is chosen by the environment);
* a function yields a `Result`: the calls it made, the context as it left
  it, and whether it returned (`status = none`) or ended the process through
  `exit_fail` (`status = some 1`);
* `printf` diagnostics are not recorded; the `states` array of the toplevel
  configure event feeds `printf` only and is not an argument here.
-/

namespace WaylandEgl

/-! ## Data model -/

/-- The context struct `ctx_t` (main.c, lines 18-47). -/
structure ctx_t where
  display : Nat
  registry : Nat
  compositor : Nat
  shm : Nat
  xdg_wm_base : Nat
  compositor_id : Nat
  shm_id : Nat
  xdg_wm_base_id : Nat
  surface : Nat
  xdg_surface : Nat
  xdg_toplevel : Nat
  egl_window : Nat
  last_surface_serial : Nat
  xdg_surface_configured : Bool
  xdg_toplevel_configured : Bool
  configured : Bool
  closing : Bool
  egl_display : Nat
  egl_context : Nat
  egl_config : Nat
  egl_surface : Nat
  width : Nat
  height : Nat
  egl_initialized : Bool
  deriving DecidableEq, Repr

/-- The null pointer. -/
def NULL : Nat := 0

/-- The null display handle of `EGL/egl.h`. -/
def EGL_NO_DISPLAY : Nat := 0

/-- The null context handle of `EGL/egl.h`. -/
def EGL_NO_CONTEXT : Nat := 0

/-- The null surface handle of `EGL/egl.h`. -/
def EGL_NO_SURFACE : Nat := 0

/-- The clear mask `GL_COLOR_BUFFER_BIT` of `GLES2/gl2.h`. -/
def GL_COLOR_BUFFER_BIT : Nat := 0x4000

/-- Conversion of a C integer to `uint32_t`. -/
def toU32 (x : Int) : Nat := (x % 4294967296).toNat

/-- Conversion of a `uint32_t` to a 32 bit `int` (two's complement). -/
def toI32 (n : Nat) : Int :=
  if n % 4294967296 < 2147483648 then ((n % 4294967296 : Nat) : Int)
  else ((n % 4294967296 : Nat) : Int) - 4294967296

/-- The library calls of `main.c` that the embedding records, with their
arguments. -/
inductive Call where
  | eglDestroyContext (dpy context : Nat)
  | eglDestroySurface (dpy surface : Nat)
  | wl_egl_window_destroy (egl_window : Nat)
  | eglTerminate (dpy : Nat)
  | xdg_toplevel_destroy (xdg_toplevel : Nat)
  | xdg_surface_destroy (xdg_surface : Nat)
  | wl_surface_destroy (surface : Nat)
  | xdg_wm_base_destroy (xdg_wm_base : Nat)
  | wl_shm_destroy (shm : Nat)
  | wl_compositor_destroy (compositor : Nat)
  | wl_registry_destroy (registry : Nat)
  | wl_display_disconnect (display : Nat)
  | free
  | exit (status : Nat)
  | wl_registry_bind (registry id : Nat) (interface : String) (version : Nat)
  | xdg_surface_ack_configure (xdg_surface serial : Nat)
  | wl_surface_commit (surface : Nat)
  | wl_egl_window_resize (egl_window : Nat) (width height dx dy : Int)
  | glViewport (x y width height : Int)
  | glClearColor
  | glClear (mask : Nat)
  | glFlush
  | eglSwapBuffers (dpy surface : Nat)
  | eglGetDisplay (native_display : Nat)
  | eglInitialize (dpy : Nat)
  | eglGetConfigs (dpy : Nat)
  | eglChooseConfig (dpy : Nat)
  | wl_egl_window_create (surface : Nat) (width height : Int)
  | eglCreateWindowSurface (dpy config egl_window : Nat)
  | eglCreateContext (dpy config : Nat)
  | eglMakeCurrent (dpy draw read context : Nat)
  deriving DecidableEq, Repr

/-- What a function of `main.c` did: the library calls it made, the context
as it left it, and `status = some n` when it ended the process with
`exit(n)` (the context is then the one handed to `exit_fail`, which
`cleanup` frees). -/
structure Result where
  calls : List Call
  ctx : ctx_t
  status : Option Nat
  deriving DecidableEq, Repr

/-- A function that returns normally after making the calls `calls`. -/
def Result.ret (calls : List Call) (ctx : ctx_t) : Result :=
  { calls := calls, ctx := ctx, status := none }

/-- Sequential composition: the statements `k` that follow `r` run only
when `r` returned. -/
def Result.andThen (r : Result) (k : ctx_t → Result) : Result :=
  match r.status with
  | some _ => r
  | none =>
    let r2 := k r.ctx
    { calls := r.calls ++ r2.calls, ctx := r2.ctx, status := r2.status }

/-! ## Teardown -/

/-- Function `cleanup` (main.c, lines 49-68): the calls it makes. -/
def cleanup (ctx : ctx_t) : List Call :=
  (if ctx.egl_context ≠ EGL_NO_SURFACE then [Call.eglDestroyContext ctx.egl_display ctx.egl_context] else []) ++
  (if ctx.egl_surface ≠ EGL_NO_SURFACE then [Call.eglDestroySurface ctx.egl_display ctx.egl_surface] else []) ++
  (if ctx.egl_window ≠ EGL_NO_SURFACE then [Call.wl_egl_window_destroy ctx.egl_window] else []) ++
  (if ctx.egl_display ≠ EGL_NO_DISPLAY then [Call.eglTerminate ctx.egl_display] else []) ++
  (if ctx.xdg_toplevel ≠ NULL then [Call.xdg_toplevel_destroy ctx.xdg_toplevel] else []) ++
  (if ctx.xdg_surface ≠ NULL then [Call.xdg_surface_destroy ctx.xdg_surface] else []) ++
  (if ctx.surface ≠ NULL then [Call.wl_surface_destroy ctx.surface] else []) ++
  (if ctx.xdg_wm_base ≠ NULL then [Call.xdg_wm_base_destroy ctx.xdg_wm_base] else []) ++
  (if ctx.shm ≠ NULL then [Call.wl_shm_destroy ctx.shm] else []) ++
  (if ctx.compositor ≠ NULL then [Call.wl_compositor_destroy ctx.compositor] else []) ++
  (if ctx.registry ≠ NULL then [Call.wl_registry_destroy ctx.registry] else []) ++
  (if ctx.display ≠ NULL then [Call.wl_display_disconnect ctx.display] else []) ++
  [Call.free]

/-- Function `exit_fail` (main.c, lines 70-73): `cleanup`, then `exit(1)`. -/
def exit_fail (ctx : ctx_t) : Result :=
  { calls := cleanup ctx ++ [Call.exit 1], ctx := ctx, status := some 1 }

/-! ## Registry handlers -/

/-- Handler `registry_event_add` (main.c, lines 77-109).  `bound` is the
pointer returned by `wl_registry_bind`. -/
def registry_event_add (bound : Nat) (ctx : ctx_t) (registry id : Nat)
    (interface : String) (_version : Nat) : Result :=
  if interface = "wl_compositor" then
    (if ctx.compositor ≠ NULL then exit_fail ctx else Result.ret [] ctx).andThen fun ctx =>
    Result.ret [Call.wl_registry_bind registry id "wl_compositor" 4]
      { ctx with compositor := bound, compositor_id := id }
  else if interface = "wl_shm" then
    (if ctx.compositor ≠ NULL then exit_fail ctx else Result.ret [] ctx).andThen fun ctx =>
    Result.ret [Call.wl_registry_bind registry id "wl_shm" 1]
      { ctx with shm := bound, shm_id := id }
  else if interface = "xdg_wm_base" then
    (if ctx.xdg_wm_base ≠ NULL then exit_fail ctx else Result.ret [] ctx).andThen fun ctx =>
    Result.ret [Call.wl_registry_bind registry id "xdg_wm_base" 2]
      { ctx with xdg_wm_base := bound, xdg_wm_base_id := id }
  else
    Result.ret [] ctx

/-- Handler `registry_event_remove` (main.c, lines 111-130). -/
def registry_event_remove (ctx : ctx_t) (id : Nat) : Result :=
  if id = ctx.compositor_id then exit_fail ctx
  else if id = ctx.shm_id then exit_fail ctx
  else if id = ctx.xdg_wm_base_id then exit_fail ctx
  else Result.ret [] ctx

/-! ## Configure handshake -/

/-- Function `surface_configure_finished` (main.c, lines 155-165). -/
def surface_configure_finished (ctx : ctx_t) : Result :=
  Result.ret
    [Call.xdg_surface_ack_configure ctx.xdg_surface ctx.last_surface_serial,
     Call.wl_surface_commit ctx.surface]
    { ctx with
      xdg_surface_configured := false
      xdg_toplevel_configured := false
      configured := true }

/-- Handler `xdg_surface_event_configure` (main.c, lines 169-180). -/
def xdg_surface_event_configure (ctx : ctx_t) (serial : Nat) : Result :=
  let ctx := { ctx with last_surface_serial := serial, xdg_surface_configured := true }
  if ctx.xdg_surface_configured && ctx.xdg_toplevel_configured then
    surface_configure_finished ctx
  else
    Result.ret [] ctx

/-- Handler `xdg_toplevel_event_configure` (main.c, lines 188-256).
`swapped` tells whether `eglSwapBuffers` returns `EGL_TRUE`. -/
def xdg_toplevel_event_configure (swapped : Bool) (ctx : ctx_t) (width height : Int) : Result :=
  let width := if width = 0 then 100 else width
  let height := if height = 0 then 100 else height
  (if ctx.egl_initialized && (toU32 width != ctx.width || toU32 height != ctx.height) then
    let ctx := { ctx with width := toU32 width, height := toU32 height }
    (Result.ret
      [Call.wl_egl_window_resize ctx.egl_window width height 0 0,
       Call.glViewport 0 0 (toI32 ctx.width) (toI32 ctx.height),
       Call.glClearColor,
       Call.glClear GL_COLOR_BUFFER_BIT,
       Call.glFlush,
       Call.eglSwapBuffers ctx.egl_display ctx.egl_surface] ctx).andThen fun ctx =>
    if swapped ≠ true then exit_fail ctx else Result.ret [] ctx
  else
    Result.ret [] ctx).andThen fun ctx =>
  let ctx := { ctx with xdg_toplevel_configured := true }
  if ctx.xdg_surface_configured && ctx.xdg_toplevel_configured then
    surface_configure_finished ctx
  else
    Result.ret [] ctx

/-- Handler `xdg_toplevel_event_close` (main.c, lines 258-268). -/
def xdg_toplevel_event_close (ctx : ctx_t) : Result :=
  Result.ret [] { ctx with closing := true }

/-! ## EGL initialisation -/

/-- What the environment answers to the library calls of `init_egl`, one
field per call, named after the call: the handle returned, or whether the
call returned `EGL_TRUE`.  `chosen_config` is the configuration that
`eglChooseConfig` writes to `ctx->egl_config`. -/
structure EglEnv where
  eglGetDisplay : Nat
  eglInitialize : Bool
  eglGetConfigs : Bool
  eglChooseConfig : Bool
  chosen_config : Nat
  wl_egl_window_create : Nat
  eglCreateWindowSurface : Nat
  eglCreateContext : Nat
  eglMakeCurrent : Bool
  eglSwapBuffers : Bool
  deriving DecidableEq, Repr

/-- Function `init_egl` (main.c, lines 277-354). -/
def init_egl (env : EglEnv) (ctx : ctx_t) : Result :=
  (Result.ret [Call.eglGetDisplay ctx.display]
    { ctx with egl_display := env.eglGetDisplay }).andThen fun ctx =>
  (if ctx.egl_display = EGL_NO_DISPLAY then exit_fail ctx else Result.ret [] ctx).andThen fun ctx =>
  (Result.ret [Call.eglInitialize ctx.egl_display] ctx).andThen fun ctx =>
  (if env.eglInitialize ≠ true then exit_fail ctx else Result.ret [] ctx).andThen fun ctx =>
  (Result.ret [Call.eglGetConfigs ctx.egl_display] ctx).andThen fun ctx =>
  (if env.eglGetConfigs ≠ true then exit_fail ctx else Result.ret [] ctx).andThen fun ctx =>
  (Result.ret [Call.eglChooseConfig ctx.egl_display]
    { ctx with egl_config := env.chosen_config }).andThen fun ctx =>
  (if env.eglChooseConfig ≠ true then exit_fail ctx else Result.ret [] ctx).andThen fun ctx =>
  let ctx := if ctx.width = 0 then { ctx with width := 100 } else ctx
  let ctx := if ctx.height = 0 then { ctx with height := 100 } else ctx
  (Result.ret [Call.wl_egl_window_create ctx.surface (toI32 ctx.width) (toI32 ctx.height)]
    { ctx with egl_window := env.wl_egl_window_create }).andThen fun ctx =>
  (if ctx.egl_window = EGL_NO_SURFACE then exit_fail ctx else Result.ret [] ctx).andThen fun ctx =>
  (Result.ret [Call.eglCreateWindowSurface ctx.egl_display ctx.egl_config ctx.egl_window]
    { ctx with egl_surface := env.eglCreateWindowSurface }).andThen fun ctx =>
  (Result.ret [Call.eglCreateContext ctx.egl_display ctx.egl_config]
    { ctx with egl_context := env.eglCreateContext }).andThen fun ctx =>
  (if ctx.egl_context = EGL_NO_CONTEXT then exit_fail ctx else Result.ret [] ctx).andThen fun ctx =>
  (Result.ret [Call.eglMakeCurrent ctx.egl_display ctx.egl_surface ctx.egl_surface ctx.egl_context]
    ctx).andThen fun ctx =>
  (if env.eglMakeCurrent ≠ true then exit_fail ctx else Result.ret [] ctx).andThen fun ctx =>
  (Result.ret
    [Call.glClearColor,
     Call.glClear GL_COLOR_BUFFER_BIT,
     Call.glFlush,
     Call.eglSwapBuffers ctx.egl_display ctx.egl_surface] ctx).andThen fun ctx =>
  (if env.eglSwapBuffers ≠ true then exit_fail ctx else Result.ret [] ctx).andThen fun ctx =>
  Result.ret [] { ctx with egl_initialized := true }

/-! ## The context built by `main` and the dispatch of events -/

/-- The context as `main` has filled it before connecting (main.c, lines
358-383).  `main` assigns neither `shm`, `shm_id` nor `egl_config`: the
`malloc`ed memory keeps whatever it held, which the three arguments stand
for. -/
def main_init (shm shm_id egl_config : Nat) : ctx_t :=
  { display := NULL
    registry := NULL
    compositor := NULL
    shm := shm
    xdg_wm_base := NULL
    compositor_id := 0
    shm_id := shm_id
    xdg_wm_base_id := 0
    surface := NULL
    xdg_surface := NULL
    xdg_toplevel := NULL
    egl_window := EGL_NO_SURFACE
    last_surface_serial := 0
    xdg_surface_configured := false
    xdg_toplevel_configured := false
    configured := false
    closing := false
    egl_display := EGL_NO_DISPLAY
    egl_context := EGL_NO_CONTEXT
    egl_config := egl_config
    egl_surface := EGL_NO_SURFACE
    width := 1
    height := 1
    egl_initialized := false }

/-- A notification for the `xdg_surface` or `xdg_toplevel` listener
(main.c, lines 182-184 and 270-273).  A toplevel configure carries the
answer `swapped` of `eglSwapBuffers` should the handler present a frame. -/
inductive Event where
  | surface_configure (serial : Nat)
  | toplevel_configure (width height : Int) (swapped : Bool)
  | toplevel_close
  deriving DecidableEq, Repr

/-- The handler that the listeners register for an event. -/
def handle (ctx : ctx_t) : Event → Result
  | Event.surface_configure serial => xdg_surface_event_configure ctx serial
  | Event.toplevel_configure width height swapped =>
      xdg_toplevel_event_configure swapped ctx width height
  | Event.toplevel_close => xdg_toplevel_event_close ctx

/-- Handlers run one after the other, in the order the events arrive, each
to completion; nothing runs after a handler has ended the process. -/
def dispatch (ctx : ctx_t) : List Event → Result
  | [] => Result.ret [] ctx
  | e :: es => (handle ctx e).andThen fun ctx => dispatch ctx es

/-! ## Observations on the recorded calls -/

/-- The four GPU teardown calls. -/
def Call.isGpuDestroy : Call → Bool
  | Call.eglDestroyContext _ _ => true
  | Call.eglDestroySurface _ _ => true
  | Call.wl_egl_window_destroy _ => true
  | Call.eglTerminate _ => true
  | _ => false

/-- The calls of a live resize that the specification counts: the window
resize, the viewport update, the clear and the presentation. -/
def Call.isResizeWork : Call → Bool
  | Call.wl_egl_window_resize _ _ _ _ _ => true
  | Call.glViewport _ _ _ _ => true
  | Call.glClear _ => true
  | Call.eglSwapBuffers _ _ => true
  | _ => false

/-- The two calls that finish a configure cycle: the acknowledgement and the
surface commit. -/
def Call.isHandshake : Call → Bool
  | Call.xdg_surface_ack_configure _ _ => true
  | Call.wl_surface_commit _ => true
  | _ => false

/-- The acknowledgement call. -/
def Call.isAck : Call → Bool
  | Call.xdg_surface_ack_configure _ _ => true
  | _ => false

/-- A zero dimension means that the client chooses, and the choice is 100
(specification, data model, `ToplevelGeometry`). -/
def resolved_dim (v : Int) : Int := if v = 0 then 100 else v

/-- An environment in which every library call of `init_egl` succeeds. -/
def EglEnv.all_succeed (env : EglEnv) : Prop :=
  env.eglGetDisplay ≠ EGL_NO_DISPLAY ∧ env.eglInitialize = true ∧ env.eglGetConfigs = true ∧
  env.eglChooseConfig = true ∧ env.wl_egl_window_create ≠ EGL_NO_SURFACE ∧
  env.eglCreateWindowSurface ≠ EGL_NO_SURFACE ∧ env.eglCreateContext ≠ EGL_NO_CONTEXT ∧
  env.eglMakeCurrent = true ∧ env.eglSwapBuffers = true

/-! ## Concrete contexts and environments -/

/-- The context at the first `wl_display_roundtrip` (main.c, line 402), when
`wl_display_connect` returned 8, `wl_display_get_registry` returned 9 and
the unassigned fields hold zero. -/
def ctx_at_roundtrip : ctx_t :=
  { main_init NULL 0 0 with display := 8, registry := 9 }

/-- Scenario A of the specification: the registry advertises
`wl_compositor` (id 1), `wl_shm` (id 2) and `xdg_wm_base` (id 3) in that
order; `wl_registry_bind` answers 11, 12 and 13. -/
def scenarioA : Result :=
  (registry_event_add 11 ctx_at_roundtrip 9 1 "wl_compositor" 4).andThen fun ctx =>
  (registry_event_add 12 ctx 9 2 "wl_shm" 1).andThen fun ctx =>
  registry_event_add 13 ctx 9 3 "xdg_wm_base" 2

/-- The context when `main` calls `init_egl` (main.c, line 459) after a run
in which the three globals were bound to 11, 12, 13, the surface objects
are 14, 15, 16 and the first configure cycle had serial 7. -/
def ctx_before_init_egl : ctx_t :=
  { ctx_at_roundtrip with
    compositor := 11, compositor_id := 1, shm := 12, shm_id := 2,
    xdg_wm_base := 13, xdg_wm_base_id := 3,
    surface := 14, xdg_surface := 15, xdg_toplevel := 16,
    last_surface_serial := 7, configured := true }

/-- An environment in which every call of `init_egl` succeeds. -/
def env_ok : EglEnv :=
  { eglGetDisplay := 21, eglInitialize := true, eglGetConfigs := true,
    eglChooseConfig := true, chosen_config := 22, wl_egl_window_create := 23,
    eglCreateWindowSurface := 24, eglCreateContext := 25,
    eglMakeCurrent := true, eglSwapBuffers := true }

/-- The context after a successful `init_egl` following the first configure
cycle: the stored size is still the 1 x 1 that `main` assigned. -/
def ctx_running : ctx_t := (init_egl env_ok ctx_before_init_egl).ctx

/-- The outcome that claim C1 describes for one configure cycle, in both
arrival orders of `xdg_surface` configure `s` and `xdg_toplevel` configure
`(w, h)`: the first handler returns without acknowledgement or commit, the
second makes exactly one `xdg_surface_ack_configure` with serial `s` followed
by exactly one `wl_surface_commit` and returns, and then both flags are false
and `configured` is true. -/
def handshake_cycle_ok (swapped : Bool) (ctx : ctx_t) (s : Nat) (w h : Int) : Prop :=
  ((xdg_surface_event_configure ctx s).status = none ∧
    (xdg_surface_event_configure ctx s).calls.filter Call.isHandshake = [] ∧
    (xdg_toplevel_event_configure swapped (xdg_surface_event_configure ctx s).ctx w h).status
      = none ∧
    (xdg_toplevel_event_configure swapped
      (xdg_surface_event_configure ctx s).ctx w h).calls.filter Call.isHandshake =
      [Call.xdg_surface_ack_configure ctx.xdg_surface s, Call.wl_surface_commit ctx.surface] ∧
    (xdg_toplevel_event_configure swapped
      (xdg_surface_event_configure ctx s).ctx w h).ctx.xdg_surface_configured = false ∧
    (xdg_toplevel_event_configure swapped
      (xdg_surface_event_configure ctx s).ctx w h).ctx.xdg_toplevel_configured = false ∧
    (xdg_toplevel_event_configure swapped
      (xdg_surface_event_configure ctx s).ctx w h).ctx.configured = true) ∧
  ((xdg_toplevel_event_configure swapped ctx w h).status = none ∧
    (xdg_toplevel_event_configure swapped ctx w h).calls.filter Call.isHandshake = [] ∧
    (xdg_surface_event_configure (xdg_toplevel_event_configure swapped ctx w h).ctx s).status
      = none ∧
    (xdg_surface_event_configure
      (xdg_toplevel_event_configure swapped ctx w h).ctx s).calls.filter Call.isHandshake =
      [Call.xdg_surface_ack_configure ctx.xdg_surface s, Call.wl_surface_commit ctx.surface] ∧
    (xdg_surface_event_configure
      (xdg_toplevel_event_configure swapped ctx w h).ctx s).ctx.xdg_surface_configured = false ∧
    (xdg_surface_event_configure
      (xdg_toplevel_event_configure swapped ctx w h).ctx s).ctx.xdg_toplevel_configured = false ∧
    (xdg_surface_event_configure
      (xdg_toplevel_event_configure swapped ctx w h).ctx s).ctx.configured = true)

/-- Scenario C of the specification up to the second toplevel configure,
from the context that `main` builds: `xdg_surface` configure with serial 7,
`xdg_toplevel` configure `(300, 200)`, then `init_egl`. -/
def scenarioC_start (shm shm_id egl_config : Nat) (env : EglEnv) : Result :=
  (xdg_surface_event_configure (main_init shm shm_id egl_config) 7).andThen fun ctx =>
  (xdg_toplevel_event_configure true ctx 300 200).andThen fun ctx =>
  init_egl env ctx

/-! ## Auxiliary lemmas -/

/-- A conditional call that a filter rejects leaves nothing in the filtered trace. -/
theorem filter_ite_singleton (p : Call → Bool) (c : Prop) [Decidable c] (x : Call)
    (h : p x = false) : List.filter p (if c then [x] else []) = [] := by
  split <;> simp [h]

/-- The teardown makes none of the calls of a live resize. -/
theorem cleanup_no_resize_work (ctx : ctx_t) :
    (cleanup ctx).filter Call.isResizeWork = [] := by
  simp [cleanup, List.filter_append, filter_ite_singleton, Call.isResizeWork]

/-- A 32 bit integer survives the conversion to `uint32_t` and back. -/
theorem toI32_toU32 (x : Int) (h1 : -2147483648 ≤ x) (h2 : x < 2147483648) :
    toI32 (toU32 x) = x := by
  unfold toI32 toU32
  split <;> omega

/-- The run of `init_egl` when every library call succeeds and the stored size is non-zero. -/
theorem init_egl_all_succeed (env : EglEnv) (ctx : ctx_t) (henv : env.all_succeed)
    (hw : ctx.width ≠ 0) (hh : ctx.height ≠ 0) :
    init_egl env ctx =
      Result.ret
        [Call.eglGetDisplay ctx.display, Call.eglInitialize env.eglGetDisplay,
         Call.eglGetConfigs env.eglGetDisplay, Call.eglChooseConfig env.eglGetDisplay,
         Call.wl_egl_window_create ctx.surface (toI32 ctx.width) (toI32 ctx.height),
         Call.eglCreateWindowSurface env.eglGetDisplay env.chosen_config env.wl_egl_window_create,
         Call.eglCreateContext env.eglGetDisplay env.chosen_config,
         Call.eglMakeCurrent env.eglGetDisplay env.eglCreateWindowSurface
           env.eglCreateWindowSurface env.eglCreateContext,
         Call.glClearColor, Call.glClear GL_COLOR_BUFFER_BIT, Call.glFlush,
         Call.eglSwapBuffers env.eglGetDisplay env.eglCreateWindowSurface]
        { ctx with
          egl_display := env.eglGetDisplay
          egl_config := env.chosen_config
          egl_window := env.wl_egl_window_create
          egl_surface := env.eglCreateWindowSurface
          egl_context := env.eglCreateContext
          egl_initialized := true } := by
  obtain ⟨h1, h2, h3, h4, h5, _, h7, h8, h9⟩ := henv
  simp only [EGL_NO_DISPLAY, EGL_NO_SURFACE, EGL_NO_CONTEXT] at h1 h5 h7
  simp [init_egl, Result.andThen, Result.ret, EGL_NO_DISPLAY, EGL_NO_SURFACE, EGL_NO_CONTEXT,
    h1, h2, h3, h4, h5, h7, h8, h9, hw, hh]

/-- A sequence returns only if both of its parts return. -/
theorem andThen_status_none (r : Result) (k : ctx_t → Result)
    (h : (r.andThen k).status = none) :
    r.status = none ∧ (k r.ctx).status = none := by
  unfold Result.andThen at h
  cases hr : r.status with
  | none => simp [hr] at h; exact ⟨rfl, h⟩
  | some n => simp [hr] at h

/-- The sequence after a part that returned. -/
theorem andThen_of_status_none (r : Result) (k : ctx_t → Result) (hr : r.status = none) :
    r.andThen k =
      { calls := r.calls ++ (k r.ctx).calls, ctx := (k r.ctx).ctx, status := (k r.ctx).status } := by
  unfold Result.andThen
  simp [hr]

/-- Dispatch of a non-empty sequence: the first handler, then the rest. -/
theorem dispatch_cons (ctx : ctx_t) (e : Event) (es : List Event) :
    dispatch ctx (e :: es) = (handle ctx e).andThen fun c => dispatch c es := rfl

/-- Dispatch of a concatenation whose first part meets no fault. -/
theorem dispatch_append (evs more : List Event) (ctx : ctx_t)
    (h : (dispatch ctx evs).status = none) :
    dispatch ctx (evs ++ more) =
      { calls := (dispatch ctx evs).calls ++ (dispatch (dispatch ctx evs).ctx more).calls
        ctx := (dispatch (dispatch ctx evs).ctx more).ctx
        status := (dispatch (dispatch ctx evs).ctx more).status } := by
  induction evs generalizing ctx with
  | nil => simp [dispatch, Result.ret]
  | cons e es ih =>
    rw [List.cons_append, dispatch_cons, dispatch_cons]
    rw [dispatch_cons] at h
    obtain ⟨h1, h2⟩ := andThen_status_none _ _ h
    rw [andThen_of_status_none _ _ h1, andThen_of_status_none _ _ h1, ih _ h2]
    simp

/-- One handler that returns keeps the two flags from being both true, and sets
`configured` exactly when it acknowledges. -/
theorem handle_invariant (ctx : ctx_t) (e : Event)
    (hf : (ctx.xdg_surface_configured && ctx.xdg_toplevel_configured) = false)
    (hr : (handle ctx e).status = none) :
    ((handle ctx e).ctx.xdg_surface_configured &&
      (handle ctx e).ctx.xdg_toplevel_configured) = false ∧
    (handle ctx e).ctx.configured = (ctx.configured || (handle ctx e).calls.any Call.isAck) := by
  cases e with
  | surface_configure serial =>
    cases h1 : ctx.xdg_surface_configured <;> cases h2 : ctx.xdg_toplevel_configured <;>
      first
      | (exfalso; simp [h1, h2] at hf; done)
      | simp [handle, xdg_surface_event_configure, surface_configure_finished, Result.ret,
          Call.isAck, h1, h2]
  | toplevel_configure width height swapped =>
    simp only [handle] at hr ⊢
    cases hc : (ctx.egl_initialized &&
        (toU32 (if width = 0 then 100 else width) != ctx.width ||
          toU32 (if height = 0 then 100 else height) != ctx.height))
    · cases h1 : ctx.xdg_surface_configured <;> cases h2 : ctx.xdg_toplevel_configured <;>
        first
        | (exfalso; simp [h1, h2] at hf; done)
        | simp [xdg_toplevel_event_configure, surface_configure_finished, Result.andThen,
            Result.ret, Call.isAck, hc, h1, h2]
    · cases swapped
      · simp [xdg_toplevel_event_configure, hc, Result.andThen, Result.ret, exit_fail] at hr
      · cases h1 : ctx.xdg_surface_configured <;> cases h2 : ctx.xdg_toplevel_configured <;>
          first
          | (exfalso; simp [h1, h2] at hf; done)
          | simp [xdg_toplevel_event_configure, surface_configure_finished, Result.andThen,
              Result.ret, Call.isAck, hc, h1, h2]
  | toplevel_close =>
    simp only [handle, xdg_toplevel_event_close, Result.ret]
    simp [hf]

/-- The same over a whole sequence of events that meets no fault. -/
theorem dispatch_invariant (evs : List Event) (ctx : ctx_t)
    (hf : (ctx.xdg_surface_configured && ctx.xdg_toplevel_configured) = false)
    (hr : (dispatch ctx evs).status = none) :
    ((dispatch ctx evs).ctx.xdg_surface_configured &&
      (dispatch ctx evs).ctx.xdg_toplevel_configured) = false ∧
    (dispatch ctx evs).ctx.configured = (ctx.configured || (dispatch ctx evs).calls.any Call.isAck) := by
  induction evs generalizing ctx with
  | nil => simp [dispatch, Result.ret, hf]
  | cons e es ih =>
    rw [dispatch_cons] at hr ⊢
    obtain ⟨h1, h2⟩ := andThen_status_none _ _ hr
    obtain ⟨a1, a2⟩ := handle_invariant ctx e hf h1
    obtain ⟨b1, b2⟩ := ih _ a1 h2
    rw [andThen_of_status_none _ _ h1]
    refine ⟨b1, ?_⟩
    simp only [b2, a2, List.any_append, Bool.or_assoc]

/-! ## Teardown order -/

/-- Claim C8.  For every context, the GPU teardown calls that `cleanup`
makes are exactly those of the list rendering context, drawable surface,
platform window, display whose handle is not null, in that order. -/
theorem cleanup_gpu_teardown (ctx : ctx_t) :
    (cleanup ctx).filter Call.isGpuDestroy =
      (([(ctx.egl_context, Call.eglDestroyContext ctx.egl_display ctx.egl_context),
         (ctx.egl_surface, Call.eglDestroySurface ctx.egl_display ctx.egl_surface),
         (ctx.egl_window, Call.wl_egl_window_destroy ctx.egl_window),
         (ctx.egl_display, Call.eglTerminate ctx.egl_display)].filter
          (fun p => p.1 ≠ 0)).map Prod.snd) := by
  simp only [cleanup, List.filter_append, Call.isGpuDestroy, filter_ite_singleton,
    List.append_nil, List.filter_cons, List.filter_nil, EGL_NO_SURFACE, EGL_NO_DISPLAY, NULL]
  by_cases h1 : ctx.egl_context = 0 <;> by_cases h2 : ctx.egl_surface = 0 <;>
    by_cases h3 : ctx.egl_window = 0 <;> by_cases h4 : ctx.egl_display = 0 <;>
    simp [h1, h2, h3, h4, Call.isGpuDestroy]

/-! ## Registry -/

/-- Claim C2, evaluated on the code.  In Scenario A the advertisement of
`wl_compositor` binds the compositor, and the advertisement of `wl_shm`
that follows ends the process through `exit_fail`: `wl_shm` is never bound
and `xdg_wm_base` is never reached. -/
theorem scenarioA_exits_on_shm :
    scenarioA.status = some 1 ∧
    scenarioA.calls =
      [Call.wl_registry_bind 9 1 "wl_compositor" 4,
       Call.wl_compositor_destroy 11, Call.wl_registry_destroy 9,
       Call.wl_display_disconnect 8, Call.free, Call.exit 1] ∧
    scenarioA.ctx.compositor = 11 ∧ scenarioA.ctx.shm = NULL ∧
    scenarioA.ctx.xdg_wm_base = NULL := by
  decide

/-- Claim C3, evaluated on the code.  An advertisement of `wl_shm` is fatal
exactly when a compositor is bound, whatever the `shm` field holds: a first
`wl_shm` after the compositor is fatal, and a second `wl_shm` before the
compositor is bound again without a fault. -/
theorem shm_advertisement_fatal_iff_compositor_bound
    (bound : Nat) (ctx : ctx_t) (registry id version : Nat) :
    ((registry_event_add bound ctx registry id "wl_shm" version).status = some 1 ↔
      ctx.compositor ≠ NULL) ∧
    (registry_event_add 12 { ctx_at_roundtrip with compositor := 11, compositor_id := 1 }
      9 2 "wl_shm" 1).status = some 1 ∧
    (registry_event_add 17 { ctx_at_roundtrip with shm := 12, shm_id := 2 }
      9 5 "wl_shm" 1) =
      Result.ret [Call.wl_registry_bind 9 5 "wl_shm" 1]
        { ctx_at_roundtrip with shm := 17, shm_id := 5 } := by
  refine ⟨?_, by decide, by decide⟩
  by_cases h : ctx.compositor = NULL <;>
    simp [registry_event_add, Result.andThen, Result.ret, exit_fail, h]

/-- Claim C4, evaluated on the code.  On the context that `main` builds, in
which no compositor is bound, the removal of id 0 ends the process through
`exit_fail`, because `compositor_id` starts at 0; and `shm_id`, which `main`
never assigns, makes the removal of whatever value it holds fatal too. -/
theorem remove_untracked_id_exits (shm shm_id egl_config : Nat) :
    (main_init shm shm_id egl_config).compositor = NULL ∧
    (registry_event_remove (main_init shm shm_id egl_config) 0).status = some 1 ∧
    (registry_event_remove ctx_at_roundtrip 0).calls =
      [Call.wl_registry_destroy 9, Call.wl_display_disconnect 8, Call.free, Call.exit 1] ∧
    (registry_event_remove (main_init NULL shm_id egl_config) shm_id).status = some 1 := by
  refine ⟨rfl, ?_, by decide, ?_⟩
  · simp [registry_event_remove, main_init, exit_fail]
  · by_cases h : shm_id = 0 <;> simp [registry_event_remove, main_init, exit_fail, h]

/-! ## EGL initialisation -/

/-- Claim C9, evaluated on the code.  When `eglCreateWindowSurface` returns
`EGL_NO_SURFACE` and every other call succeeds, `init_egl` does not stop:
it goes on to `eglCreateContext`, makes the context current on the null
surface, presents, and returns with `egl_initialized` set. -/
theorem init_egl_goes_on_without_surface :
    (init_egl { env_ok with eglCreateWindowSurface := EGL_NO_SURFACE } ctx_before_init_egl).calls =
      [Call.eglGetDisplay 8, Call.eglInitialize 21, Call.eglGetConfigs 21,
       Call.eglChooseConfig 21, Call.wl_egl_window_create 14 1 1,
       Call.eglCreateWindowSurface 21 22 23, Call.eglCreateContext 21 22,
       Call.eglMakeCurrent 21 0 0 25, Call.glClearColor,
       Call.glClear GL_COLOR_BUFFER_BIT, Call.glFlush, Call.eglSwapBuffers 21 0] ∧
    (init_egl { env_ok with eglCreateWindowSurface := EGL_NO_SURFACE } ctx_before_init_egl).status
      = none ∧
    (init_egl { env_ok with eglCreateWindowSurface := EGL_NO_SURFACE }
      ctx_before_init_egl).ctx.egl_surface = EGL_NO_SURFACE ∧
    (init_egl { env_ok with eglCreateWindowSurface := EGL_NO_SURFACE }
      ctx_before_init_egl).ctx.egl_initialized = true := by
  decide

/-! ## Live resize -/

/-- Claim C5.  For every context and every toplevel configure whose
arguments are 32 bit integers, with `(w, h)` the resolved size: when EGL is
not initialised or `(w, h)` equals the stored size (compared, as in C, after
conversion to `uint32_t`), the handler makes no window resize, no viewport
update, no clear and no presentation and leaves the stored size unchanged;
when EGL is initialised and `(w, h)` differs from the stored size, it makes
exactly one window resize to `(w, h)`, one viewport update to `(0, 0, w, h)`,
one clear and one `eglSwapBuffers`, in that order, and the stored size becomes
`(w, h)`. -/
theorem toplevel_configure_resize (swapped : Bool) (ctx : ctx_t) (width height : Int)
    (hw1 : -2147483648 ≤ width) (hw2 : width < 2147483648)
    (hh1 : -2147483648 ≤ height) (hh2 : height < 2147483648) :
    ((ctx.egl_initialized = false ∨
        (toU32 (resolved_dim width) = ctx.width ∧ toU32 (resolved_dim height) = ctx.height)) →
      (xdg_toplevel_event_configure swapped ctx width height).calls.filter Call.isResizeWork = [] ∧
      (xdg_toplevel_event_configure swapped ctx width height).ctx.width = ctx.width ∧
      (xdg_toplevel_event_configure swapped ctx width height).ctx.height = ctx.height) ∧
    ((ctx.egl_initialized = true ∧
        (toU32 (resolved_dim width) ≠ ctx.width ∨ toU32 (resolved_dim height) ≠ ctx.height)) →
      (xdg_toplevel_event_configure swapped ctx width height).calls.filter Call.isResizeWork =
        [Call.wl_egl_window_resize ctx.egl_window (resolved_dim width) (resolved_dim height) 0 0,
         Call.glViewport 0 0 (resolved_dim width) (resolved_dim height),
         Call.glClear GL_COLOR_BUFFER_BIT,
         Call.eglSwapBuffers ctx.egl_display ctx.egl_surface] ∧
      (xdg_toplevel_event_configure swapped ctx width height).ctx.width
        = toU32 (resolved_dim width) ∧
      (xdg_toplevel_event_configure swapped ctx width height).ctx.height
        = toU32 (resolved_dim height)) := by
  have rw1 : -2147483648 ≤ resolved_dim width ∧ resolved_dim width < 2147483648 := by
    unfold resolved_dim; split <;> omega
  have rh1 : -2147483648 ≤ resolved_dim height ∧ resolved_dim height < 2147483648 := by
    unfold resolved_dim; split <;> omega
  have ew := toI32_toU32 _ rw1.1 rw1.2
  have eh := toI32_toU32 _ rh1.1 rh1.2
  simp only [resolved_dim] at ew eh ⊢
  constructor
  · intro h
    have hc : (ctx.egl_initialized && (toU32 (if width = 0 then 100 else width) != ctx.width ||
        toU32 (if height = 0 then 100 else height) != ctx.height)) = false := by
      rcases h with h | ⟨h1, h2⟩
      · simp [h]
      · simp [h1, h2]
    cases hs : ctx.xdg_surface_configured <;>
      simp [xdg_toplevel_event_configure, hc, Result.andThen, Result.ret,
        surface_configure_finished, hs, Call.isResizeWork]
  · intro h
    have hc : (ctx.egl_initialized && (toU32 (if width = 0 then 100 else width) != ctx.width ||
        toU32 (if height = 0 then 100 else height) != ctx.height)) = true := by
      rcases h with ⟨h0, h1 | h2⟩
      · simp [h0, h1]
      · simp [h0, h2]
    cases hs : ctx.xdg_surface_configured <;> cases swapped <;>
      simp [xdg_toplevel_event_configure, hc, Result.andThen, Result.ret, exit_fail,
        surface_configure_finished, hs, Call.isResizeWork, List.filter_append,
        cleanup_no_resize_work, ew, eh]

/-- Instance of claim C5 on the running context (stored size 1 x 1) with a
configure to 300 x 200. -/
theorem toplevel_configure_resize_witness :
    ((-2147483648 : Int) ≤ 300 ∧ (300 : Int) < 2147483648 ∧
      (-2147483648 : Int) ≤ 200 ∧ (200 : Int) < 2147483648) ∧
    ctx_running.egl_initialized = true ∧ toU32 (resolved_dim 300) ≠ ctx_running.width ∧
    (xdg_toplevel_event_configure true ctx_running 300 200).calls.filter Call.isResizeWork =
      [Call.wl_egl_window_resize 23 300 200 0 0, Call.glViewport 0 0 300 200,
       Call.glClear GL_COLOR_BUFFER_BIT, Call.eglSwapBuffers 21 24] :=
  ⟨by decide, by decide, by decide,
    ((toplevel_configure_resize true ctx_running 300 200 (by decide) (by decide) (by decide)
      (by decide)).2 ⟨by decide, Or.inl (by decide)⟩).1⟩

/-- Claim C7.  In `xdg_toplevel_event_configure` a dimension equal to 0 is
replaced by 100 and any other is kept, before the comparison with the stored
size: a resize is made exactly when EGL is initialised and the resolved size
differs from the stored one, and it is made to the resolved size, which is
also the size stored; `(0, 480)` resolves to `(100, 480)` and `(0, 0)` to
`(100, 100)`.  On an initialised context whose stored size is `(100, 480)`,
configure `(0, 480)` makes no resize, and a resize made from non-negative 32
bit arguments stores a width and a height that are both non-zero. -/
theorem toplevel_configure_resolves_zero (swapped : Bool) (ctx : ctx_t) (width height : Int) :
    (resolved_dim 0 = 100 ∧ (width ≠ 0 → resolved_dim width = width) ∧
      (height ≠ 0 → resolved_dim height = height)) ∧
    ((xdg_toplevel_event_configure swapped ctx width height).calls.filter Call.isResizeWork ≠ [] ↔
      ctx.egl_initialized = true ∧
        (toU32 (resolved_dim width) ≠ ctx.width ∨ toU32 (resolved_dim height) ≠ ctx.height)) ∧
    ((xdg_toplevel_event_configure swapped ctx width height).calls.filter Call.isResizeWork ≠ [] →
      Call.wl_egl_window_resize ctx.egl_window (resolved_dim width) (resolved_dim height) 0 0
        ∈ (xdg_toplevel_event_configure swapped ctx width height).calls ∧
      (xdg_toplevel_event_configure swapped ctx width height).ctx.width
        = toU32 (resolved_dim width) ∧
      (xdg_toplevel_event_configure swapped ctx width height).ctx.height
        = toU32 (resolved_dim height)) ∧
    ((xdg_toplevel_event_configure swapped ctx_running 0 480).calls.filter Call.isResizeWork =
        [Call.wl_egl_window_resize 23 100 480 0 0, Call.glViewport 0 0 100 480,
         Call.glClear GL_COLOR_BUFFER_BIT, Call.eglSwapBuffers 21 24] ∧
      (xdg_toplevel_event_configure swapped ctx_running 0 0).calls.filter Call.isResizeWork =
        [Call.wl_egl_window_resize 23 100 100 0 0, Call.glViewport 0 0 100 100,
         Call.glClear GL_COLOR_BUFFER_BIT, Call.eglSwapBuffers 21 24]) ∧
    (ctx.egl_initialized = true → ctx.width = 100 → ctx.height = 480 →
      (xdg_toplevel_event_configure swapped ctx 0 480).calls.filter Call.isResizeWork = [] ∧
      (xdg_toplevel_event_configure swapped ctx 0 480).ctx.width = 100 ∧
      (xdg_toplevel_event_configure swapped ctx 0 480).ctx.height = 480) ∧
    (0 ≤ width → width < 2147483648 → 0 ≤ height → height < 2147483648 →
      (xdg_toplevel_event_configure swapped ctx width height).calls.filter Call.isResizeWork ≠ [] →
      (xdg_toplevel_event_configure swapped ctx width height).ctx.width ≠ 0 ∧
      (xdg_toplevel_event_configure swapped ctx width height).ctx.height ≠ 0) := by
  have key : ∀ (w h : Int),
      ((xdg_toplevel_event_configure swapped ctx w h).calls.filter Call.isResizeWork ≠ [] ↔
        ctx.egl_initialized = true ∧
          (toU32 (resolved_dim w) ≠ ctx.width ∨ toU32 (resolved_dim h) ≠ ctx.height)) ∧
      ((xdg_toplevel_event_configure swapped ctx w h).calls.filter Call.isResizeWork ≠ [] →
        Call.wl_egl_window_resize ctx.egl_window (resolved_dim w) (resolved_dim h) 0 0
          ∈ (xdg_toplevel_event_configure swapped ctx w h).calls ∧
        (xdg_toplevel_event_configure swapped ctx w h).ctx.width = toU32 (resolved_dim w) ∧
        (xdg_toplevel_event_configure swapped ctx w h).ctx.height = toU32 (resolved_dim h)) ∧
      (¬ (ctx.egl_initialized = true ∧
          (toU32 (resolved_dim w) ≠ ctx.width ∨ toU32 (resolved_dim h) ≠ ctx.height)) →
        (xdg_toplevel_event_configure swapped ctx w h).ctx.width = ctx.width ∧
        (xdg_toplevel_event_configure swapped ctx w h).ctx.height = ctx.height) := by
    intro w h
    simp only [resolved_dim]
    by_cases hc : (ctx.egl_initialized && (toU32 (if w = 0 then 100 else w) != ctx.width ||
        toU32 (if h = 0 then 100 else h) != ctx.height)) = true
    · have hp : ctx.egl_initialized = true ∧ (toU32 (if w = 0 then 100 else w) ≠ ctx.width ∨
          toU32 (if h = 0 then 100 else h) ≠ ctx.height) := by
        simpa using hc
      cases hs : ctx.xdg_surface_configured <;> cases swapped <;>
        simp [xdg_toplevel_event_configure, hc, hp, Result.andThen, Result.ret, exit_fail,
          surface_configure_finished, hs, Call.isResizeWork, List.filter_append]
    · have hp : ¬ (ctx.egl_initialized = true ∧ (toU32 (if w = 0 then 100 else w) ≠ ctx.width ∨
          toU32 (if h = 0 then 100 else h) ≠ ctx.height)) := by
        simpa using hc
      cases hs : ctx.xdg_surface_configured <;>
        simp [xdg_toplevel_event_configure, hc, hp, Result.andThen, Result.ret,
          surface_configure_finished, hs, Call.isResizeWork]
  refine ⟨⟨rfl, fun h => by simp [resolved_dim, h], fun h => by simp [resolved_dim, h]⟩,
    (key width height).1, (key width height).2.1, ⟨?_, ?_⟩, ?_, ?_⟩
  · cases swapped <;> decide
  · cases swapped <;> decide
  · intro h0 h1 h2
    have hn : ¬ (ctx.egl_initialized = true ∧
        (toU32 (resolved_dim 0) ≠ ctx.width ∨ toU32 (resolved_dim 480) ≠ ctx.height)) := by
      have a1 : toU32 (resolved_dim 0) = 100 := by decide
      have a2 : toU32 (resolved_dim 480) = 480 := by decide
      rw [h1, h2, a1, a2]; simp
    have hk := key 0 480
    refine ⟨?_, ?_, ?_⟩
    · by_contra hne
      exact hn (hk.1.mp hne)
    · rw [(hk.2.2 hn).1, h1]
    · rw [(hk.2.2 hn).2, h2]
  · intro hw1 hw2 hh1 hh2 hne
    obtain ⟨-, e1, e2⟩ := (key width height).2.1 hne
    rw [e1, e2]
    unfold toU32 resolved_dim
    constructor <;> split <;> omega

/-- Instance of claim C7: a configure to `(0, 480)` on the running context,
whose stored size is 1 x 1, stores the non-zero size `(100, 480)`. -/
theorem toplevel_configure_resolves_zero_witness :
    ((0 : Int) ≤ 0 ∧ (0 : Int) < 2147483648 ∧ (0 : Int) ≤ 480 ∧ (480 : Int) < 2147483648) ∧
    (xdg_toplevel_event_configure true ctx_running 0 480).calls.filter Call.isResizeWork ≠ [] ∧
    (xdg_toplevel_event_configure true ctx_running 0 480).ctx.width ≠ 0 ∧
    (xdg_toplevel_event_configure true ctx_running 0 480).ctx.height ≠ 0 :=
  ⟨by decide, by decide,
    (toplevel_configure_resolves_zero true ctx_running 0 480).2.2.2.2.2
      (by decide) (by decide) (by decide) (by decide) (by decide)⟩

/-! ## Configure handshake -/

/-- Claim C1 fails as stated.  On the running context (both flags false,
EGL initialised, stored size 1 x 1), with `xdg_surface` configure 8 followed
by `xdg_toplevel` configure `(300, 200)` whose `eglSwapBuffers` fails, the
second handler ends the process through `exit_fail` and makes neither an
acknowledgement nor a commit. -/
theorem swap_failure_blocks_acknowledgement :
    ctx_running.xdg_surface_configured = false ∧
    ctx_running.xdg_toplevel_configured = false ∧
    (xdg_toplevel_event_configure false
      (xdg_surface_event_configure ctx_running 8).ctx 300 200).status = some 1 ∧
    (xdg_toplevel_event_configure false
      (xdg_surface_event_configure ctx_running 8).ctx 300 200).calls.filter Call.isHandshake = [] ∧
    ¬ handshake_cycle_ok false ctx_running 8 300 200 := by
  refine ⟨by decide, by decide, by decide, by decide, ?_⟩
  intro h
  exact absurd h.1.2.2.1 (by decide)

/-- Claim C1, amended.  From a context in which both configure flags are
false, for every serial `s` and every geometry `(w, h)` for which the
toplevel handler is not stopped by a failed presentation (`eglSwapBuffers`
answers `EGL_TRUE` whenever EGL is initialised and the resolved size differs
from the stored one), in both arrival orders: the first handler makes no
acknowledgement and no commit, the second makes exactly one acknowledgement,
with serial `s`, followed by exactly one commit, and afterwards both flags
are false and `configured` is true. -/
theorem configure_cycle_acknowledged (swapped : Bool) (ctx : ctx_t) (s : Nat) (w h : Int)
    (hs : ctx.xdg_surface_configured = false) (ht : ctx.xdg_toplevel_configured = false)
    (hswap : ctx.egl_initialized = true →
      (toU32 (resolved_dim w) ≠ ctx.width ∨ toU32 (resolved_dim h) ≠ ctx.height) →
      swapped = true) :
    handshake_cycle_ok swapped ctx s w h := by
  simp only [resolved_dim] at hswap
  unfold handshake_cycle_ok
  by_cases hc : (ctx.egl_initialized && (toU32 (if w = 0 then 100 else w) != ctx.width ||
      toU32 (if h = 0 then 100 else h) != ctx.height)) = true
  · have hp : ctx.egl_initialized = true ∧ (toU32 (if w = 0 then 100 else w) ≠ ctx.width ∨
        toU32 (if h = 0 then 100 else h) ≠ ctx.height) := by
      simpa using hc
    have hsw : swapped = true := hswap hp.1 hp.2
    subst hsw
    simp [xdg_toplevel_event_configure, xdg_surface_event_configure, hc, hs, ht,
      Result.andThen, Result.ret, surface_configure_finished, Call.isHandshake]
  · simp [xdg_toplevel_event_configure, xdg_surface_event_configure, hc, hs, ht,
      Result.andThen, Result.ret, surface_configure_finished, Call.isHandshake]

/-- Instance of the amended claim C1: on the running context a cycle with
serial 8 and geometry `(300, 200)` whose presentation succeeds. -/
theorem configure_cycle_acknowledged_witness :
    ctx_running.xdg_surface_configured = false ∧
    ctx_running.xdg_toplevel_configured = false ∧
    handshake_cycle_ok true ctx_running 8 300 200 :=
  ⟨by decide, by decide,
    configure_cycle_acknowledged true ctx_running 8 300 200 (by decide) (by decide) (fun _ _ => rfl)⟩

/-- Claim C6 fails as stated.  In Scenario C run from the context that
`main` builds, the stored size after `init_egl` is still 1 x 1, and the
second toplevel configure `(300, 200)` makes a window resize, a viewport
update and a presentation. -/
theorem scenarioC_resize_after_init :
    (scenarioC_start NULL 0 0 env_ok).status = none ∧
    (scenarioC_start NULL 0 0 env_ok).ctx.egl_initialized = true ∧
    (scenarioC_start NULL 0 0 env_ok).ctx.width = 1 ∧
    (scenarioC_start NULL 0 0 env_ok).ctx.height = 1 ∧
    (xdg_toplevel_event_configure true (scenarioC_start NULL 0 0 env_ok).ctx 300 200).calls =
      [Call.wl_egl_window_resize 23 300 200 0 0, Call.glViewport 0 0 300 200,
       Call.glClearColor, Call.glClear GL_COLOR_BUFFER_BIT, Call.glFlush,
       Call.eglSwapBuffers 21 24] ∧
    ¬ ((xdg_toplevel_event_configure true
        (scenarioC_start NULL 0 0 env_ok).ctx 300 200).calls.filter Call.isResizeWork = []) := by
  decide

/-- Claim C6, amended.  In Scenario C run from the context that `main`
builds, with every call of `init_egl` succeeding: the first toplevel
configure, which arrives before EGL is initialised, does not store its
geometry, so after `init_egl` the stored size is still 1 x 1 and the second
toplevel configure `(300, 200)` makes exactly one window resize to
`(300, 200)`, one viewport update to `(0, 0, 300, 200)`, one clear and one
`eglSwapBuffers`, and stores `(300, 200)`; a further toplevel configure
`(300, 200)` makes none of these calls. -/
theorem scenarioC_second_configure (shm shm_id egl_config : Nat) (env : EglEnv)
    (swapped2 swapped3 : Bool) (henv : env.all_succeed) :
    (scenarioC_start shm shm_id egl_config env).status = none ∧
    (scenarioC_start shm shm_id egl_config env).ctx.egl_initialized = true ∧
    (scenarioC_start shm shm_id egl_config env).ctx.width = 1 ∧
    (scenarioC_start shm shm_id egl_config env).ctx.height = 1 ∧
    (xdg_toplevel_event_configure swapped2
      (scenarioC_start shm shm_id egl_config env).ctx 300 200).calls.filter Call.isResizeWork =
      [Call.wl_egl_window_resize env.wl_egl_window_create 300 200 0 0,
       Call.glViewport 0 0 300 200,
       Call.glClear GL_COLOR_BUFFER_BIT,
       Call.eglSwapBuffers env.eglGetDisplay env.eglCreateWindowSurface] ∧
    (xdg_toplevel_event_configure swapped2
      (scenarioC_start shm shm_id egl_config env).ctx 300 200).ctx.width = 300 ∧
    (xdg_toplevel_event_configure swapped2
      (scenarioC_start shm shm_id egl_config env).ctx 300 200).ctx.height = 200 ∧
    (xdg_toplevel_event_configure swapped3
      (xdg_toplevel_event_configure swapped2
        (scenarioC_start shm shm_id egl_config env).ctx 300 200).ctx
      300 200).calls.filter Call.isResizeWork = [] := by
  have hstart : scenarioC_start shm shm_id egl_config env =
      Result.ret
        [Call.xdg_surface_ack_configure NULL 7, Call.wl_surface_commit NULL,
         Call.eglGetDisplay NULL, Call.eglInitialize env.eglGetDisplay,
         Call.eglGetConfigs env.eglGetDisplay, Call.eglChooseConfig env.eglGetDisplay,
         Call.wl_egl_window_create NULL 1 1,
         Call.eglCreateWindowSurface env.eglGetDisplay env.chosen_config env.wl_egl_window_create,
         Call.eglCreateContext env.eglGetDisplay env.chosen_config,
         Call.eglMakeCurrent env.eglGetDisplay env.eglCreateWindowSurface
           env.eglCreateWindowSurface env.eglCreateContext,
         Call.glClearColor, Call.glClear GL_COLOR_BUFFER_BIT, Call.glFlush,
         Call.eglSwapBuffers env.eglGetDisplay env.eglCreateWindowSurface]
        { main_init shm shm_id egl_config with
          last_surface_serial := 7
          configured := true
          egl_display := env.eglGetDisplay
          egl_config := env.chosen_config
          egl_window := env.wl_egl_window_create
          egl_surface := env.eglCreateWindowSurface
          egl_context := env.eglCreateContext
          egl_initialized := true } := by
    have e1 : toI32 1 = 1 := by decide
    simp [scenarioC_start, xdg_surface_event_configure, xdg_toplevel_event_configure,
      surface_configure_finished, main_init, Result.andThen, Result.ret,
      init_egl_all_succeed _ _ henv, e1]
  have u3 : toU32 300 = 300 := by decide
  have u2 : toU32 200 = 200 := by decide
  have i3 : toI32 300 = 300 := by decide
  have i2 : toI32 200 = 200 := by decide
  rw [hstart]
  cases swapped2 <;> cases swapped3 <;>
    simp [xdg_toplevel_event_configure, surface_configure_finished, main_init, Result.andThen,
      Result.ret, exit_fail, u3, u2, i3, i2, Call.isResizeWork, List.filter_append,
      cleanup_no_resize_work]

/-- Instance of the amended claim C6 in the environment `env_ok`. -/
theorem scenarioC_second_configure_witness :
    env_ok.all_succeed ∧
    (xdg_toplevel_event_configure true
      (scenarioC_start NULL 0 0 env_ok).ctx 300 200).calls.filter Call.isResizeWork =
      [Call.wl_egl_window_resize 23 300 200 0 0, Call.glViewport 0 0 300 200,
       Call.glClear GL_COLOR_BUFFER_BIT, Call.eglSwapBuffers 21 24] :=
  ⟨by unfold EglEnv.all_succeed; decide,
    (scenarioC_second_configure NULL 0 0 env_ok true true
      (by unfold EglEnv.all_succeed; decide)).2.2.2.2.1⟩

/-- Claim C10.  From a context with both configure flags false and
`configured` false, along every sequence of `xdg_surface` configure,
`xdg_toplevel` configure and close notifications that meets no fatal fault,
after every handler (that is, after every prefix `evs` of the sequence
`evs ++ more`): the handlers so far have returned, the two flags are not both
true, `configured` is true exactly when an acknowledgement has been sent so
far, and if `configured` is true it is still true at the end of the
sequence. -/
theorem handshake_invariant (ctx : ctx_t) (evs more : List Event)
    (hs : ctx.xdg_surface_configured = false) (ht : ctx.xdg_toplevel_configured = false)
    (hc : ctx.configured = false)
    (hrun : (dispatch ctx (evs ++ more)).status = none) :
    (dispatch ctx evs).status = none ∧
    ¬ ((dispatch ctx evs).ctx.xdg_surface_configured = true ∧
        (dispatch ctx evs).ctx.xdg_toplevel_configured = true) ∧
    ((dispatch ctx evs).ctx.configured = true ↔
      ∃ c ∈ (dispatch ctx evs).calls, c.isAck = true) ∧
    ((dispatch ctx evs).ctx.configured = true →
      (dispatch ctx (evs ++ more)).ctx.configured = true) := by
  have hpre : (dispatch ctx evs).status = none := by
    cases h : (dispatch ctx evs).status with
    | none => rfl
    | some n =>
      exfalso
      have key : ∀ (l : List Event) (c : ctx_t) (n : Nat), (dispatch c l).status = some n →
          (dispatch c (l ++ more)).status = some n := by
        intro l
        induction l with
        | nil => intro c n hn; simp [dispatch, Result.ret] at hn
        | cons e es ih =>
          intro c n hn
          rw [List.cons_append, dispatch_cons]
          rw [dispatch_cons] at hn
          cases he : (handle c e).status with
          | some m =>
            simp only [Result.andThen, he] at hn ⊢
            exact hn
          | none =>
            rw [andThen_of_status_none _ _ he] at hn ⊢
            exact ih _ _ hn
      rw [key evs ctx n h] at hrun
      exact Option.noConfusion hrun
  have hf : (ctx.xdg_surface_configured && ctx.xdg_toplevel_configured) = false := by
    rw [hs, ht]; rfl
  obtain ⟨a1, a2⟩ := dispatch_invariant evs ctx hf hpre
  have happ := dispatch_append evs more ctx hpre
  have hmore : (dispatch (dispatch ctx evs).ctx more).status = none := by
    rw [happ] at hrun; exact hrun
  obtain ⟨-, b2⟩ := dispatch_invariant more _ a1 hmore
  refine ⟨hpre, ?_, ?_, ?_⟩
  · intro hboth
    simp [hboth.1, hboth.2] at a1
  · rw [a2, hc]
    simp [List.any_eq_true]
  · intro hconf
    rw [happ]
    simp [b2, hconf]

/-- Instance of claim C10: from the context that `main` builds, after the
first configure cycle of a run that goes on with a close and another
toplevel configure. -/
theorem handshake_invariant_witness :
    (dispatch (main_init NULL 0 0)
      ([Event.surface_configure 7, Event.toplevel_configure 300 200 true] ++
        [Event.toplevel_close, Event.toplevel_configure 0 0 true])).status = none ∧
    (dispatch (main_init NULL 0 0)
      [Event.surface_configure 7, Event.toplevel_configure 300 200 true]).ctx.configured = true ∧
    (∃ c ∈ (dispatch (main_init NULL 0 0)
      [Event.surface_configure 7, Event.toplevel_configure 300 200 true]).calls,
      c.isAck = true) :=
  ⟨by decide, by decide,
    (handshake_invariant (main_init NULL 0 0)
      [Event.surface_configure 7, Event.toplevel_configure 300 200 true]
      [Event.toplevel_close, Event.toplevel_configure 0 0 true]
      rfl rfl rfl (by decide)).2.2.1.mp (by decide)⟩

end WaylandEgl
